import Mathlib

/-!
Verification development for the dp-graph hierarchy-materialization pipeline.

The Go source consists of two backends implementing the driver.Hierarchy
capability: a Neptune (Gremlin) backend with a concurrent, ID-driven batch
pipeline, and a Neo4j (Cypher) backend with a legacy single-statement path
plus retry-by-recursion.  The shallow embedding below models:
  - backend statements as an inductive datatype of (phase, parameters),
    since the spec treats query-text templating as a pure function of its
    inputs and the query-template package is external to the embedded core;
  - the backend connection pool as a record of abstract response functions;
  - each Go method as a pure Lean function returning the list of issued
    statements together with its result.
-/

/- Association list (StrMap) standing in for the Go map with string keys and values.
   Insertion replaces the value of an existing key, as Go map assignment does. -/
abbrev StrMap := List (String × String)

def insertA (m : StrMap) (k v : String) : StrMap :=
  if m.any (fun p => p.fst == k) then
    m.map (fun p => if p.fst == k then (k, v) else p)
  else m ++ [(k, v)]

def mergeA (acc part : StrMap) : StrMap :=
  part.foldl (fun a p => insertA a p.fst p.snd) acc

/-- Modelled from the spec: the helper createArray (not under src/) turns the
key set of a Go map into a slice; callers in src/unnamed/part_000 use it to
list the codes or node IDs of a chunk inside a statement. -/
def createArray (m : StrMap) : List String :=
  m.map Prod.fst

/-- Modelled from the spec: the helper createMapFromArrays (not under src/)
builds the deduplicated map-as-set keyed by the given codes, which the
resolver feeds to the batch scheduler. -/
def createMapFromArrays (codes : List String) : StrMap :=
  codes.foldl (fun a c => insertA a c c) []

/- Gremlin statements issued by the Neptune backend, one constructor per
   query template, carrying the parameters the Go code formats into the
   template. -/
inductive NQuery where
  | hierarchyExists (instanceID dimension : String)
  | getHierarchyRoot (instanceID dimension : String)
  | getHierarchyElement (instanceID dimension code : String)
  | getCodesWithData (instanceID dimensionName : String)
  | setHasData (instanceID dimensionName : String) (codes : List String)
  | genericHierarchyNodeIDs (codeListID : String) (codes : List String)
  | genericHierarchyAncestryIDs (codeListID : String) (codes : List String)
  | cloneHierarchyNodes (codeListID instanceID dimensionName : String)
  | cloneHierarchyNodesFromIDs (ids : List String)
      (instanceID dimensionName : String) (hasData : Bool) (codeListID : String)
  | cloneHierarchyRelationships (codeListID instanceID dimensionName : String)
  | cloneHierarchyRelationshipsFromIDs (ids : List String) (instanceID dimensionName : String)
  | removeCloneMarkers (instanceID dimensionName : String)
  | removeCloneMarkersFromSourceIDs (ids : List String)
  | setNumberOfChildren (instanceID dimensionName : String)
  | setNumberOfChildrenFromIDs (ids : List String)
  | createHasCodeEdge (code codeListID nodeId : String)
  | cloneOrderFromIDs (ids : List String) (codeListID : String)
  | countHierarchyNodes (instanceID dimensionName : String)
  | getHierarchyNodeIDs (instanceID dimensionName : String)
deriving DecidableEq, Repr

/- Error values visible to the embedded code: the sentinel errors of the
   graph/driver package, backend faults, graphson decode failures, and the
   two diagnostic wrappers used by the callers. -/
inductive GraphErr where
  | notFound
  | multipleFound
  | notImplemented
  | backend (msg : String)
  | deserializeFailure (msg : String)
  | unmarshalFailure (tag : String)
  | gremlinQueryFailed (base : GraphErr) (stmt : NQuery)
  | neoWrapped (base : GraphErr) (diag : String)
deriving DecidableEq, Repr

/- Model of the raw graphson payloads decoded by the resolver batches:
   a response data block deserializes into a list of items, each item
   deserializes into a map from keys to raw JSON values, and a raw value
   unmarshals into a string only when it is a JSON string. -/
inductive RawValue where
  | str (s : String)
  | other (tag : String)
deriving DecidableEq, Repr

inductive ItemData where
  | badItem (msg : String)
  | mapItem (entries : List (String × RawValue))
deriving DecidableEq, Repr

inductive RespData where
  | badData (msg : String)
  | listData (items : List ItemData)
deriving DecidableEq, Repr

structure GremgoResponse where
  data : RespData
deriving DecidableEq, Repr

def deserializeListFromBytes : RespData → Except GraphErr (List ItemData)
  | RespData.badData msg => Except.error (GraphErr.deserializeFailure msg)
  | RespData.listData items => Except.ok items

def deserializeMapFromBytes : ItemData → Except GraphErr (List (String × RawValue))
  | ItemData.badItem msg => Except.error (GraphErr.deserializeFailure msg)
  | ItemData.mapItem entries => Except.ok entries

def unmarshalString : RawValue → Except GraphErr String
  | RawValue.str s => Except.ok s
  | RawValue.other tag => Except.error (GraphErr.unmarshalFailure tag)

def lookupRaw (m : List (String × RawValue)) (k : String) : Option RawValue :=
  match m.find? (fun p => p.fst == k) with
  | none => none
  | some p => some p.snd

/- Chunking.  chunksF carries explicit fuel so that the definition is
   structurally recursive and computable by the kernel; chunks instantiates
   the fuel with the list length, which is always sufficient because every
   step consumes at least one element. -/
def chunksF {α : Type} (b : Nat) : Nat → List α → List (List α)
  | _, [] => []
  | 0, l => [l]
  | fuel + 1, x :: xs => (x :: xs.take (b - 1)) :: chunksF b fuel (xs.drop (b - 1))

def chunks {α : Type} (b : Nat) (l : List α) : List (List α) :=
  chunksF b l.length l

/-- Modelled from the spec: the BatchScheduler (processInConcurrentBatches,
spec section 4.1) is not under src/; only its call sites are.  It partitions
the input mapping into chunks of at most batchSize entries, applies the
per-chunk function to every chunk under a pool bounded by maxWorkers,
merges the successful partial result maps, and collects every chunk error.
The bounded concurrency itself has no observable effect on the aggregated
outcome, so the embedding applies the chunk function in chunk order;
maxWorkers is retained as a parameter of the contract. -/
def processInConcurrentBatches (input : StrMap)
    (f : StrMap → List NQuery × Except GraphErr StrMap)
    (batchSize maxWorkers : Nat) : List NQuery × StrMap × List GraphErr :=
  let outs := (chunks batchSize input).map f
  ((outs.map Prod.fst).flatten,
   outs.foldl (fun acc o =>
      match o.snd with
      | Except.ok part => mergeA acc part
      | Except.error _ => acc) [],
   outs.filterMap (fun o =>
      match o.snd with
      | Except.ok _ => none
      | Except.error e => some e))

/- Graph vertices and edges as the embedding needs them: the Go code only
   ever reads the backend-assigned identifier of a vertex, and an edge is a
   labelled ordered pair of node identifiers. -/
structure GVertex where
  vid : String
deriving DecidableEq, Repr

structure GEdge where
  src : String
  dst : String
  lbl : String
deriving DecidableEq, Repr

/- NeptuneDB: the Neptune driver, reduced to the abstract GraphStore
   capability it consumes (one response function per read/exec shape) plus
   its batching configuration.  Mirrors the fields used by the methods in
   src/unnamed/part_000. -/
structure NeptuneDB where
  execResp : NQuery → Except GraphErr (List GremgoResponse)
  getVerticesResp : NQuery → Except GraphErr (List GVertex)
  getStringListResp : NQuery → Except GraphErr (List String)
  getEdgesResp : NQuery → Except GraphErr (List GEdge)
  childrenOf : String → List String
  ancestryOf : String → List String
  batchSizeReader : Nat
  batchSizeWriter : Nat
  maxWorkers : Nat

/- getNodeIdCodeFromMap, from src/unnamed/part_000 lines 768-788: a record
   missing the node_id or node_code key yields ErrNotFound; a value that
   fails to unmarshal into a string yields the unmarshal error. -/
def getNodeIdCodeFromMap (nodeCodeMap : List (String × RawValue)) :
    Except GraphErr (String × String) :=
  match lookupRaw nodeCodeMap "node_id" with
  | none => Except.error GraphErr.notFound
  | some rawNodeId =>
    match lookupRaw nodeCodeMap "node_code" with
    | none => Except.error GraphErr.notFound
    | some rawCode =>
      match unmarshalString rawNodeId with
      | Except.error e => Except.error e
      | Except.ok nodeID =>
        match unmarshalString rawCode with
        | Except.error e => Except.error e
        | Except.ok code => Except.ok (nodeID, code)

/- The inner decoding loops of doGetGenericHierarchyNodeIDs (part_000 lines
   734-757): iterate the batched gremgo responses, deserialize each data
   block into a list of records, decode each record into an (id, code) pair
   and accumulate, stopping at the first failure. -/
def decodeItems : List ItemData → StrMap → Except GraphErr StrMap
  | [], acc => Except.ok acc
  | item :: rest, acc =>
    match deserializeMapFromBytes item with
    | Except.error e => Except.error e
    | Except.ok m =>
      match getNodeIdCodeFromMap m with
      | Except.error e => Except.error e
      | Except.ok (nodeId, code) => decodeItems rest (insertA acc nodeId code)

def decodeResponses : List GremgoResponse → StrMap → Except GraphErr StrMap
  | [], acc => Except.ok acc
  | r :: rest, acc =>
    match deserializeListFromBytes r.data with
    | Except.error e => Except.error e
    | Except.ok items =>
      match decodeItems items acc with
      | Except.error e => Except.error e
      | Except.ok acc2 => decodeResponses rest acc2

def genericHierarchyStmt (ancestries : Bool) (codeListID : String)
    (chunkCodes : StrMap) : NQuery :=
  if ancestries then NQuery.genericHierarchyAncestryIDs codeListID (createArray chunkCodes)
  else NQuery.genericHierarchyNodeIDs codeListID (createArray chunkCodes)

/- The per-batch closure of doGetGenericHierarchyNodeIDs: build the leaf or
   ancestry statement for the chunk codes, execute it, decode the responses.
   An execution failure is wrapped with the failing statement; decode
   failures are returned as they are. -/
def processGenericHierarchyBatch (p : NeptuneDB) (codeListID : String)
    (ancestries : Bool) (chunkCodes : StrMap) :
    List NQuery × Except GraphErr StrMap :=
  let stmt := genericHierarchyStmt ancestries codeListID chunkCodes
  match p.execResp stmt with
  | Except.error e => ([stmt], Except.error (GraphErr.gremlinQueryFailed e stmt))
  | Except.ok res =>
    match decodeResponses res [] with
    | Except.error e => ([stmt], Except.error e)
    | Except.ok nodeIdOrders => ([stmt], Except.ok nodeIdOrders)

/- doGetGenericHierarchyNodeIDs (part_000 lines 693-766): run the batches
   through the scheduler; if any error was collected return the first one
   (with an empty map), otherwise return the merged map. -/
def NeptuneDB.doGetGenericHierarchyNodeIDs (p : NeptuneDB) (attempt : Nat)
    (codeListID : String) (codes : List String) (ancestries : Bool) :
    List NQuery × Except GraphErr StrMap :=
  let out := processInConcurrentBatches (createMapFromArrays codes)
    (processGenericHierarchyBatch p codeListID ancestries) p.batchSizeReader p.maxWorkers
  match out.snd.snd with
  | [] => (out.fst, Except.ok out.snd.fst)
  | e :: _ => (out.fst, Except.error e)

def NeptuneDB.GetGenericHierarchyNodeIDs (p : NeptuneDB) (attempt : Nat)
    (codeListID : String) (codes : List String) :
    List NQuery × Except GraphErr StrMap :=
  p.doGetGenericHierarchyNodeIDs attempt codeListID codes false

def NeptuneDB.GetGenericHierarchyAncestriesIDs (p : NeptuneDB) (attempt : Nat)
    (codeListID : String) (codes : List String) :
    List NQuery × Except GraphErr StrMap :=
  p.doGetGenericHierarchyNodeIDs attempt codeListID codes true

/- The per-batch closures of the four ID-driven cloning phases, lifted to
   named definitions: each builds its statement from the chunk identifiers,
   executes it, and returns an empty partial result map on success. -/
def cloneNodesBatch (p : NeptuneDB) (instanceID codeListID dimensionName : String)
    (hasData : Bool) (chunkIDs : StrMap) : List NQuery × Except GraphErr StrMap :=
  let gremStmt := NQuery.cloneHierarchyNodesFromIDs (createArray chunkIDs)
    instanceID dimensionName hasData codeListID
  match p.execResp gremStmt with
  | Except.error e => ([gremStmt], Except.error e)
  | Except.ok _ => ([gremStmt], Except.ok [])

def cloneRelationshipsBatch (p : NeptuneDB) (instanceID dimensionName : String)
    (chunkIDs : StrMap) : List NQuery × Except GraphErr StrMap :=
  let gremStmt := NQuery.cloneHierarchyRelationshipsFromIDs (createArray chunkIDs)
    instanceID dimensionName
  match p.getEdgesResp gremStmt with
  | Except.error e => ([gremStmt], Except.error e)
  | Except.ok _ => ([gremStmt], Except.ok [])

def removeCloneEdgesBatch (p : NeptuneDB) (chunkIDs : StrMap) :
    List NQuery × Except GraphErr StrMap :=
  let gremStmt := NQuery.removeCloneMarkersFromSourceIDs (createArray chunkIDs)
  match p.execResp gremStmt with
  | Except.error e => ([gremStmt], Except.error e)
  | Except.ok _ => ([gremStmt], Except.ok [])

def setNumberOfChildrenBatch (p : NeptuneDB) (chunkIDs : StrMap) :
    List NQuery × Except GraphErr StrMap :=
  let gremStmt := NQuery.setNumberOfChildrenFromIDs (createArray chunkIDs)
  match p.execResp gremStmt with
  | Except.error e => ([gremStmt], Except.error e)
  | Except.ok _ => ([gremStmt], Except.ok [])

/- CloneNodesFromIDs (part_000 lines 843-878). -/
def NeptuneDB.CloneNodesFromIDs (p : NeptuneDB) (attempt : Nat)
    (instanceID codeListID dimensionName : String) (ids : StrMap) (hasData : Bool) :
    List NQuery × Option GraphErr :=
  let out := processInConcurrentBatches ids
    (cloneNodesBatch p instanceID codeListID dimensionName hasData)
    p.batchSizeWriter p.maxWorkers
  match out.snd.snd with
  | [] => (out.fst, none)
  | e :: _ => (out.fst, some e)

/- CloneRelationshipsFromIDs (part_000 lines 959-994): the batch statement
   is executed through the edge-returning read. -/
def NeptuneDB.CloneRelationshipsFromIDs (p : NeptuneDB) (attempt : Nat)
    (instanceID dimensionName : String) (ids : StrMap) :
    List NQuery × Option GraphErr :=
  let out := processInConcurrentBatches ids
    (cloneRelationshipsBatch p instanceID dimensionName) p.batchSizeWriter p.maxWorkers
  match out.snd.snd with
  | [] => (out.fst, none)
  | e :: _ => (out.fst, some e)

/- RemoveCloneEdgesFromSourceIDs (part_000 lines 1040-1068). -/
def NeptuneDB.RemoveCloneEdgesFromSourceIDs (p : NeptuneDB) (attempt : Nat)
    (ids : StrMap) : List NQuery × Option GraphErr :=
  let out := processInConcurrentBatches ids (removeCloneEdgesBatch p)
    p.batchSizeWriter p.maxWorkers
  match out.snd.snd with
  | [] => (out.fst, none)
  | e :: _ => (out.fst, some e)

/- SetNumberOfChildrenFromIDs (part_000 lines 1095-1123). -/
def NeptuneDB.SetNumberOfChildrenFromIDs (p : NeptuneDB) (attempt : Nat)
    (ids : StrMap) : List NQuery × Option GraphErr :=
  let out := processInConcurrentBatches ids (setNumberOfChildrenBatch p)
    p.batchSizeWriter p.maxWorkers
  match out.snd.snd with
  | [] => (out.fst, none)
  | e :: _ => (out.fst, some e)

/- RemoveCloneEdges (part_000 lines 1018-1037): one statement dropping every
   clone_of provenance edge in the instance hierarchy namespace. -/
def NeptuneDB.RemoveCloneEdges (p : NeptuneDB) (attempt : Nat)
    (instanceID dimensionName : String) : List NQuery × Option GraphErr :=
  let gremStmt := NQuery.removeCloneMarkers instanceID dimensionName
  match p.execResp gremStmt with
  | Except.error e => ([gremStmt], some e)
  | Except.ok _ => ([gremStmt], none)

/- CloneRelationships (part_000 lines 932-957): the bulk variant; after the
   relationship-cloning traversal succeeds it finishes by calling
   RemoveCloneEdges and returns its outcome. -/
def NeptuneDB.CloneRelationships (p : NeptuneDB) (attempt : Nat)
    (instanceID codeListID dimensionName : String) : List NQuery × Option GraphErr :=
  let gremStmt := NQuery.cloneHierarchyRelationships codeListID instanceID dimensionName
  match p.getEdgesResp gremStmt with
  | Except.error e => ([gremStmt], some e)
  | Except.ok _ =>
    let out := p.RemoveCloneEdges attempt instanceID dimensionName
    (gremStmt :: out.fst, out.snd)

/- SetHasData (part_000 lines 1125-1162): read the codes that carry data for
   the instance dimension, then set hasData on every clone whose code is in
   that list.  A failed read is wrapped with the failing statement. -/
def NeptuneDB.SetHasData (p : NeptuneDB) (attempt : Nat)
    (instanceID dimensionName : String) : List NQuery × Option GraphErr :=
  let codesWithDataStmt := NQuery.getCodesWithData instanceID dimensionName
  match p.getStringListResp codesWithDataStmt with
  | Except.error e =>
      ([codesWithDataStmt], some (GraphErr.gremlinQueryFailed e codesWithDataStmt))
  | Except.ok codes =>
    let gremStmt := NQuery.setHasData instanceID dimensionName codes
    match p.execResp gremStmt with
    | Except.error e => ([codesWithDataStmt, gremStmt], some e)
    | Except.ok _ => ([codesWithDataStmt, gremStmt], none)

/- HierarchyExists (part_000 lines 1277-1305). -/
def NeptuneDB.HierarchyExists (p : NeptuneDB) (instanceID dimension : String) :
    Bool × Option GraphErr :=
  let gremStmt := NQuery.hierarchyExists instanceID dimension
  match p.getVerticesResp gremStmt with
  | Except.error e => (false, some e)
  | Except.ok vertices =>
    if vertices.length == 1 then (true, none)
    else if vertices.length > 1 then (true, some GraphErr.multipleFound)
    else (false, none)

/- The assembled read-side result: identifier plus the children and, when
   requested, the breadcrumbs (nearest ancestor first). -/
structure HierarchyResponse where
  rid : String
  children : List String
  breadcrumbs : List String
deriving DecidableEq, Repr

/-- Modelled from the spec: buildHierarchyNode is not under src/.  Per spec
section 4.5 it assembles children (direct descendants) for every element
and breadcrumbs (ancestor chain, nearest first) only when requested; its
follow-up child and ancestry queries are abstracted as the childrenOf and
ancestryOf capabilities of the driver. -/
def NeptuneDB.buildHierarchyNode (p : NeptuneDB) (vertex : GVertex)
    (instanceID dimension : String) (wantBreadcrumbs : Bool) :
    Except GraphErr HierarchyResponse :=
  Except.ok
    { rid := vertex.vid
      children := p.childrenOf vertex.vid
      breadcrumbs := if wantBreadcrumbs then p.ancestryOf vertex.vid else [] }

/- GetHierarchyRoot (part_000 lines 1241-1275): zero root candidates is
   ErrNotFound, several is ErrMultipleFound, and the unique candidate is
   assembled without breadcrumbs (meaningless for a root node). -/
def NeptuneDB.GetHierarchyRoot (p : NeptuneDB) (instanceID dimension : String) :
    Except GraphErr HierarchyResponse :=
  let gremStmt := NQuery.getHierarchyRoot instanceID dimension
  match p.getVerticesResp gremStmt with
  | Except.error e => Except.error e
  | Except.ok [] => Except.error GraphErr.notFound
  | Except.ok [vertex] => p.buildHierarchyNode vertex instanceID dimension false
  | Except.ok (_ :: _ :: _) => Except.error GraphErr.multipleFound

/-- Modelled from the spec: the singular-vertex read layer getVertex is not
under src/.  Per spec section 4.5 a lookup expected to match exactly one
entity fails with NotFound on zero matches and MultipleFound on more than
one. -/
def NeptuneDB.getVertex (p : NeptuneDB) (gremStmt : NQuery) :
    Except GraphErr GVertex :=
  match p.getVerticesResp gremStmt with
  | Except.error e => Except.error e
  | Except.ok [] => Except.error GraphErr.notFound
  | Except.ok [vertex] => Except.ok vertex
  | Except.ok (_ :: _ :: _) => Except.error GraphErr.multipleFound

/- GetHierarchyElement (part_000 lines 1307-1331): fetch the unique matching
   vertex, then assemble it with breadcrumbs (we are at depth). -/
def NeptuneDB.GetHierarchyElement (p : NeptuneDB)
    (instanceID dimension code : String) : Except GraphErr HierarchyResponse :=
  let gremStmt := NQuery.getHierarchyElement instanceID dimension code
  match p.getVertex gremStmt with
  | Except.error e => Except.error e
  | Except.ok vertex => p.buildHierarchyNode vertex instanceID dimension true

/- Neo4j (Cypher) statement builders.  The query-template package is not
   part of the embedded core (string templating is a pure function of its
   inputs per spec section 1), so the builders produce an injective textual
   encoding of template name and parameters in template order, matching the
   fmt.Sprintf call sites in src/neo4j. -/
def query.HierarchyExists (instanceID dimension : String) : String :=
  "HierarchyExists(" ++ instanceID ++ "," ++ dimension ++ ")"

def query.CloneHierarchyNodes (codeListID instanceID dimensionName : String) : String :=
  "CloneHierarchyNodes(" ++ codeListID ++ "," ++ instanceID ++ "," ++ dimensionName ++ ")"

def query.SetNumberOfChildren (instanceID dimensionName : String) : String :=
  "SetNumberOfChildren(" ++ instanceID ++ "," ++ dimensionName ++ ","
    ++ instanceID ++ "," ++ dimensionName ++ ")"

def query.GetHierarchyRoot (instanceID dimension : String) : String :=
  "GetHierarchyRoot(" ++ instanceID ++ "," ++ dimension ++ ")"

def query.GetHierarchyElement (instanceID dimension : String) : String :=
  "GetHierarchyElement(" ++ instanceID ++ "," ++ dimension ++ ")"

def query.GetChildren (instanceID dimension : String) : String :=
  "GetChildren(" ++ instanceID ++ "," ++ dimension ++ ")"

def query.GetAncestry (instanceID dimension : String) : String :=
  "GetAncestry(" ++ instanceID ++ "," ++ dimension ++ ")"

/- The Neo4j driver: the statement-execution capability (whose outcome may
   differ between attempts), the transient-error classifier, the retry
   ceiling, the element-returning read capability, and the raw
   parameterised row read consumed by ReadWithParams (rows carry the node
   identifier the row mappers extract). -/
structure Neo4j where
  execOutcome : Nat → String → Option GraphErr
  isTransient : GraphErr → Bool
  maxRetries : Nat
  readElements : String → Except GraphErr (List String)
  queryRows : String → List (String × String) → Except GraphErr (List String)

/-- Modelled from the spec: checkAttempts (the RetryDriver core) is not
under src/; only its call sites are.  Per spec section 4.2 it reports
"retry" (none) exactly when the classifier says the error is transient and
the attempt counter is below the configured ceiling, and otherwise returns
the error wrapped with its diagnostic string argument (the failing
statement at seven of the eight call sites). -/
def Neo4j.checkAttempts (n : Neo4j) (e : GraphErr) (diag : String)
    (attempt : Nat) : Option GraphErr :=
  if n.isTransient e = true ∧ attempt < n.maxRetries then none
  else some (GraphErr.neoWrapped e diag)

/- CloneNodes (src/neo4j/hierarchy_writer.go lines 40-66): execute the clone
   statement; on failure consult checkAttempts with the statement as the
   diagnostic and either re-invoke itself with attempt+1 and identical
   arguments or return the wrapped error. -/
def Neo4j.CloneNodes (n : Neo4j) (attempt : Nat)
    (instanceID codeListID dimensionName : String) : Option GraphErr :=
  let q := query.CloneHierarchyNodes codeListID instanceID dimensionName
  match n.execOutcome attempt q with
  | none => none
  | some e =>
    match h : n.checkAttempts e q attempt with
    | some finalErr => some finalErr
    | none => n.CloneNodes (attempt + 1) instanceID codeListID dimensionName
termination_by n.maxRetries + 1 - attempt
decreasing_by
  unfold Neo4j.checkAttempts at h
  split at h
  · omega
  · exact absurd h (by simp)

/- SetNumberOfChildren (src/neo4j/hierarchy_writer.go lines 102-128): as
   CloneNodes, except that the call site passes the instanceID, not the
   statement, as the diagnostic argument of checkAttempts (line 120). -/
def Neo4j.SetNumberOfChildren (n : Neo4j) (attempt : Nat)
    (instanceID dimensionName : String) : Option GraphErr :=
  let q := query.SetNumberOfChildren instanceID dimensionName
  match n.execOutcome attempt q with
  | none => none
  | some e =>
    match h : n.checkAttempts e instanceID attempt with
    | some finalErr => some finalErr
    | none => n.SetNumberOfChildren (attempt + 1) instanceID dimensionName
termination_by n.maxRetries + 1 - attempt
decreasing_by
  unfold Neo4j.checkAttempts at h
  split at h
  · omega
  · exact absurd h (by simp)

/- The eleven ID-driven operations stubbed by the Neo4j backend
   (src/neo4j/hierarchy_writer.go lines 242-268 and
   src/neo4j/hierarchy_reader.go lines 159-177): each returns
   driver.ErrNotImplemented immediately and issues no statement. -/
def Neo4j.CloneNodesFromIDs (n : Neo4j) (attempt : Nat)
    (instanceID codeListID dimensionName : String) (ids : StrMap) (hasData : Bool) :
    List String × Option GraphErr :=
  ([], some GraphErr.notImplemented)

def Neo4j.CloneRelationshipsFromIDs (n : Neo4j) (attempt : Nat)
    (instanceID dimensionName : String) (ids : StrMap) :
    List String × Option GraphErr :=
  ([], some GraphErr.notImplemented)

def Neo4j.CreateHasCodeEdges (n : Neo4j) (attempt : Nat)
    (codeListID : String) (codesById : StrMap) : List String × Option GraphErr :=
  ([], some GraphErr.notImplemented)

def Neo4j.CloneOrderFromIDs (n : Neo4j) (codeListID : String) (ids : StrMap) :
    List String × Option GraphErr :=
  ([], some GraphErr.notImplemented)

def Neo4j.RemoveCloneEdges (n : Neo4j) (attempt : Nat)
    (instanceID dimensionName : String) : List String × Option GraphErr :=
  ([], some GraphErr.notImplemented)

def Neo4j.RemoveCloneEdgesFromSourceIDs (n : Neo4j) (attempt : Nat)
    (ids : StrMap) : List String × Option GraphErr :=
  ([], some GraphErr.notImplemented)

def Neo4j.SetNumberOfChildrenFromIDs (n : Neo4j) (attempt : Nat)
    (ids : StrMap) : List String × Option GraphErr :=
  ([], some GraphErr.notImplemented)

def Neo4j.GetCodesWithData (n : Neo4j) (attempt : Nat)
    (instanceID dimensionName : String) :
    List String × (List String × Option GraphErr) :=
  ([], ([], some GraphErr.notImplemented))

def Neo4j.GetGenericHierarchyNodeIDs (n : Neo4j) (attempt : Nat)
    (codeListID : String) (codes : List String) :
    List String × (StrMap × Option GraphErr) :=
  ([], ([], some GraphErr.notImplemented))

def Neo4j.GetGenericHierarchyAncestriesIDs (n : Neo4j) (attempt : Nat)
    (codeListID : String) (codes : List String) :
    List String × (StrMap × Option GraphErr) :=
  ([], ([], some GraphErr.notImplemented))

def Neo4j.GetHierarchyNodeIDs (n : Neo4j) (attempt : Nat)
    (instanceID dimensionName : String) :
    List String × (StrMap × Option GraphErr) :=
  ([], ([], some GraphErr.notImplemented))

/- HierarchyExists (src/neo4j/hierarchy_reader.go lines 57-91): a read that
   reports ErrNotFound (the driver signals zero rows this way) yields
   (false, nil); otherwise one element yields (true, nil), several yield
   (true, ErrMultipleFound), zero yield (false, nil). -/
def Neo4j.HierarchyExists (n : Neo4j) (instanceID dimension : String) :
    Bool × Option GraphErr :=
  let neoStmt := query.HierarchyExists instanceID dimension
  match n.readElements neoStmt with
  | Except.error e =>
    if e = GraphErr.notFound then (false, none) else (false, some e)
  | Except.ok vertices =>
    if vertices.length == 1 then (true, none)
    else if vertices.length > 1 then (true, some GraphErr.multipleFound)
    else (false, none)

/-- Modelled from the spec: ReadWithParams and the row mappers are not
under src/.  The row loop follows the v1 driver Read in
src/unnamed/part_002 lines 55-85: zero returned rows yield ErrNotFound,
with the single flag set a second row aborts with a non-unique error, and
otherwise every row is handed to the mapper in order. -/
def readWithParamsRows (rows : Except GraphErr (List String)) (single : Bool) :
    Except GraphErr (List String) :=
  match rows with
  | Except.error e => Except.error e
  | Except.ok rs =>
    if rs.length == 0 then Except.error GraphErr.notFound
    else if single && rs.length > 1 then
      Except.error (GraphErr.backend "non unique results")
    else Except.ok rs

/-- Modelled from the spec: the Hierarchy row mapper (not under src/)
writes each mapped row into the one destination response, so after the
row loop the destination holds the last row. -/
def lastRow (rows : List String) : String :=
  rows.foldl (fun _ r => r) ""

/- getChildren and getAncestry (src/neo4j/hierarchy_reader.go lines
   112-125): element lists read with the code as a statement parameter. -/
def Neo4j.getChildren (n : Neo4j) (instanceID dimension code : String) :
    Except GraphErr (List String) :=
  readWithParamsRows (n.queryRows (query.GetChildren instanceID dimension)
    [("code", code)]) false

def Neo4j.getAncestry (n : Neo4j) (instanceID dimension code : String) :
    Except GraphErr (List String) :=
  readWithParamsRows (n.queryRows (query.GetAncestry instanceID dimension)
    [("code", code)]) false

/- queryResponse (src/neo4j/hierarchy_reader.go lines 94-110): reads with
   the single flag UNSET, so several matching rows are all mapped into the
   one destination (the last row wins) and no multiplicity error is ever
   raised on this path; then the children of the mapped identifier are
   attached, treating ErrNotFound from the children read as no children. -/
def Neo4j.queryResponse (n : Neo4j) (instanceID dimension : String)
    (neoStmt : String) (neoArgs : List (String × String)) :
    Except GraphErr HierarchyResponse :=
  match readWithParamsRows (n.queryRows neoStmt neoArgs) false with
  | Except.error e => Except.error e
  | Except.ok rows =>
    match n.getChildren instanceID dimension (lastRow rows) with
    | Except.error e =>
      if e = GraphErr.notFound then
        Except.ok { rid := lastRow rows, children := [], breadcrumbs := [] }
      else Except.error e
    | Except.ok cs =>
      Except.ok { rid := lastRow rows, children := cs, breadcrumbs := [] }

/- GetHierarchyRoot (src/neo4j/hierarchy_reader.go lines 36-39): the root
   response only; no ancestry lookup, so its breadcrumbs stay empty. -/
def Neo4j.GetHierarchyRoot (n : Neo4j) (instanceID dimension : String) :
    Except GraphErr HierarchyResponse :=
  n.queryResponse instanceID dimension (query.GetHierarchyRoot instanceID dimension) []

/- GetHierarchyElement (src/neo4j/hierarchy_reader.go lines 42-54): the
   element response, then the ancestry of the requested code attached as
   breadcrumbs. -/
def Neo4j.GetHierarchyElement (n : Neo4j) (instanceID dimension code : String) :
    Except GraphErr HierarchyResponse :=
  match n.queryResponse instanceID dimension
      (query.GetHierarchyElement instanceID dimension) [("code", code)] with
  | Except.error e => Except.error e
  | Except.ok res =>
    match n.getAncestry instanceID dimension code with
    | Except.error e => Except.error e
    | Except.ok bs => Except.ok { res with breadcrumbs := bs }

/- Graph-state semantics for the statements whose pipeline effect the
   claims observe.  A node carries the namespace label, the business code,
   the observation value and the hasData flag; edges are labelled pairs.
   The label builders mirror the label scheme visible in the expected query
   strings of the tests in src/unnamed/part_000. -/
structure GNode where
  nid : String
  nlabel : String
  code : String
  value : String
  hasData : Bool
deriving DecidableEq, Repr

structure GraphSt where
  nodes : List GNode
  edges : List GEdge
deriving DecidableEq, Repr

def hierarchyNodeLabel (instanceID dimensionName : String) : String :=
  "_hierarchy_node_" ++ instanceID ++ "_" ++ dimensionName

def dimensionDataLabel (instanceID dimensionName : String) : String :=
  "_" ++ instanceID ++ "_" ++ dimensionName

def nodeLabeled (g : GraphSt) (nid lab : String) : Bool :=
  g.nodes.any (fun nd => nd.nid == nid && nd.nlabel == lab)

/-- Modelled from the spec: effect of the GetCodesWithData read on a graph
state.  The query lists the value property of every node carrying the
instance dimension label; it mutates nothing. -/
def codesWithData (g : GraphSt) (instanceID dimensionName : String) : List String :=
  (g.nodes.filter (fun nd => nd.nlabel == dimensionDataLabel instanceID dimensionName)).map
    (fun nd => nd.value)

def applyHasData (instanceID dimensionName : String) (codes : List String)
    (nd : GNode) : GNode :=
  if nd.nlabel == hierarchyNodeLabel instanceID dimensionName && codes.contains nd.code then
    { nd with hasData := true }
  else nd

/-- Modelled from the spec: effect of the SetHasData mutation on a graph
state.  Every clone node in the instance hierarchy namespace whose code is
within the given list gets hasData set to true; nothing else changes. -/
def setHasDataEffect (g : GraphSt) (instanceID dimensionName : String)
    (codes : List String) : GraphSt :=
  { g with nodes := g.nodes.map (applyHasData instanceID dimensionName codes) }

def cloneSourcesOf (g : GraphSt) (hl genericId : String) : List String :=
  (g.edges.filter (fun e =>
    e.lbl == "clone_of" && e.dst == genericId && nodeLabeled g e.src hl)).map
    (fun e => e.src)

/-- Modelled from the spec: effect of the bulk CloneHierarchyRelationships
traversal on a graph state.  For every generic hasParent edge it adds the
mirrored hasParent edge between every pair of namespace clones located via
their clone_of back-edges; it only ever adds hasParent edges. -/
def cloneRelationshipsEffect (g : GraphSt) (instanceID dimensionName : String) :
    GraphSt :=
  let hl := hierarchyNodeLabel instanceID dimensionName
  let mirrored :=
    (g.edges.filter (fun e => e.lbl == "hasParent")).flatMap (fun e =>
      (cloneSourcesOf g hl e.src).flatMap (fun c =>
        (cloneSourcesOf g hl e.dst).map (fun pc => GEdge.mk c pc "hasParent")))
  { g with edges := g.edges ++ mirrored }

/-- Modelled from the spec: effect of the RemoveCloneMarkers drop statement
on a graph state.  Every clone_of edge leaving a node labelled with the
instance hierarchy namespace is removed. -/
def removeCloneMarkersEffect (g : GraphSt) (instanceID dimensionName : String) :
    GraphSt :=
  let hl := hierarchyNodeLabel instanceID dimensionName
  { g with edges :=
      g.edges.filter (fun e => !(e.lbl == "clone_of" && nodeLabeled g e.src hl)) }

/- Interpreting an issued statement on a graph state.  Reads leave the
   state unchanged; the three mutations the observed claims exercise are
   interpreted by their modelled effects. -/
def applyStmt (g : GraphSt) : NQuery → GraphSt
  | NQuery.setHasData instanceID dimensionName codes =>
      setHasDataEffect g instanceID dimensionName codes
  | NQuery.cloneHierarchyRelationships _ instanceID dimensionName =>
      cloneRelationshipsEffect g instanceID dimensionName
  | NQuery.removeCloneMarkers instanceID dimensionName =>
      removeCloneMarkersEffect g instanceID dimensionName
  | _ => g

def applyStmts (g : GraphSt) (stmts : List NQuery) : GraphSt :=
  stmts.foldl applyStmt g

/- A driver wired to a graph state: every call succeeds and the
   string-list read answers the codes-with-data question from the state. -/
def statePool (g : GraphSt) : NeptuneDB :=
  { execResp := fun _ => Except.ok []
    getVerticesResp := fun _ => Except.ok []
    getStringListResp := fun stmt =>
      match stmt with
      | NQuery.getCodesWithData instanceID dimensionName =>
          Except.ok (codesWithData g instanceID dimensionName)
      | _ => Except.ok []
    getEdgesResp := fun _ => Except.ok []
    childrenOf := fun _ => []
    ancestryOf := fun _ => []
    batchSizeReader := 1
    batchSizeWriter := 1
    maxWorkers := 1 }

/- Running a phase against a graph state: issue the statements the Go
   method produces against the state-backed driver, then interpret them in
   order on the state. -/
def runSetHasData (g : GraphSt) (attempt : Nat) (instanceID dimensionName : String) :
    GraphSt :=
  applyStmts g ((statePool g).SetHasData attempt instanceID dimensionName).fst

def runCloneRelationships (g : GraphSt) (attempt : Nat)
    (instanceID codeListID dimensionName : String) : GraphSt :=
  applyStmts g ((statePool g).CloneRelationships attempt instanceID codeListID dimensionName).fst

/- Helper lemmas about chunking. -/

theorem chunksF_nil {α : Type} (b fuel : Nat) :
    chunksF (α := α) b fuel [] = [] := by
  cases fuel <;> rfl

theorem chunksF_length {α : Type} (b : Nat) (hb : 0 < b) :
    ∀ (fuel : Nat) (l : List α), l.length ≤ fuel →
      (chunksF b fuel l).length = (l.length + b - 1) / b := by
  intro fuel
  induction fuel with
  | zero =>
    intro l hl
    have hnil : l = [] := List.eq_nil_of_length_eq_zero (Nat.le_zero.mp hl)
    subst hnil
    simp only [chunksF, List.length_nil]
    exact (Nat.div_eq_of_lt (by omega)).symm
  | succ fuel ih =>
    intro l hl
    match l with
    | [] =>
      simp only [chunksF, List.length_nil]
      exact (Nat.div_eq_of_lt (by omega)).symm
    | x :: xs =>
      rw [chunksF]
      simp only [List.length_cons]
      rw [ih (xs.drop (b - 1)) (by simp only [List.length_drop]; simp at hl; omega)]
      simp only [List.length_drop]
      rcases Nat.lt_or_ge xs.length (b - 1) with hc | hc
      · have h1 : xs.length - (b - 1) + b - 1 = b - 1 := by omega
        have h2 : xs.length + 1 + b - 1 = xs.length + b := by omega
        rw [h1, h2, Nat.div_eq_of_lt (by omega), Nat.add_div_right _ hb,
          Nat.div_eq_of_lt (by omega)]
      · have h1 : xs.length - (b - 1) + b - 1 = xs.length := by omega
        have h2 : xs.length + 1 + b - 1 = xs.length + b := by omega
        rw [h1, h2, Nat.add_div_right _ hb]

theorem chunks_length {α : Type} (b : Nat) (hb : 0 < b) (l : List α) :
    (chunks b l).length = (l.length + b - 1) / b :=
  chunksF_length b hb l.length l (Nat.le_refl _)

theorem chunksF_sizes {α : Type} (b : Nat) (hb : 0 < b) :
    ∀ (fuel : Nat) (l : List α), l.length ≤ fuel →
      ∀ c ∈ chunksF b fuel l, c.length ≤ b := by
  intro fuel
  induction fuel with
  | zero =>
    intro l hl c hc
    have hnil : l = [] := List.eq_nil_of_length_eq_zero (Nat.le_zero.mp hl)
    subst hnil
    simp [chunksF] at hc
  | succ fuel ih =>
    intro l hl c hc
    match l with
    | [] => simp [chunksF] at hc
    | x :: xs =>
      rw [chunksF] at hc
      rcases List.mem_cons.mp hc with hfirst | hrest
      · subst hfirst
        simp only [List.length_cons, List.length_take]
        omega
      · exact ih (xs.drop (b - 1))
          (by simp only [List.length_drop]; simp at hl; omega) c hrest

theorem chunks_sizes {α : Type} (b : Nat) (hb : 0 < b) (l : List α) :
    ∀ c ∈ chunks b l, c.length ≤ b :=
  chunksF_sizes b hb l.length l (Nat.le_refl _)

theorem flatten_map_singleton {α β : Type} (g : α → β) (l : List α) :
    (l.map (fun c => [g c])).flatten = l.map g := by
  induction l with
  | nil => rfl
  | cons x xs ih => simp [ih]

theorem filter_idem {α : Type} (p : α → Bool) (l : List α) :
    (l.filter p).filter p = l.filter p := by
  induction l with
  | nil => rfl
  | cons x xs ih =>
    by_cases h : p x = true <;> simp [List.filter_cons, h, ih]

/- Concrete drivers used by witnesses. -/

def neptuneOneVertex : NeptuneDB :=
  { execResp := fun _ => Except.ok []
    getVerticesResp := fun _ => Except.ok [GVertex.mk "node-1"]
    getStringListResp := fun _ => Except.ok []
    getEdgesResp := fun _ => Except.ok []
    childrenOf := fun _ => ["child-1"]
    ancestryOf := fun _ => ["parent-1", "grandparent-1"]
    batchSizeReader := 1
    batchSizeWriter := 1
    maxWorkers := 1 }

def neo4jOneElement : Neo4j :=
  { execOutcome := fun _ _ => none
    isTransient := fun _ => false
    maxRetries := 3
    readElements := fun _ => Except.ok ["el-1"]
    queryRows := fun _ _ => Except.ok [] }

def neptuneExecFails : NeptuneDB :=
  { execResp := fun _ => Except.error (GraphErr.backend "boom")
    getVerticesResp := fun _ => Except.ok []
    getStringListResp := fun _ => Except.ok []
    getEdgesResp := fun _ => Except.error (GraphErr.backend "boom")
    childrenOf := fun _ => []
    ancestryOf := fun _ => []
    batchSizeReader := 1
    batchSizeWriter := 1
    maxWorkers := 2 }

def neo4jPermanentFailure : Neo4j :=
  { execOutcome := fun _ _ => some (GraphErr.backend "bad request")
    isTransient := fun _ => false
    maxRetries := 5
    readElements := fun _ => Except.ok []
    queryRows := fun _ _ => Except.ok [] }

def neo4jTransientOnce : Neo4j :=
  { execOutcome := fun a _ => if a == 1 then some (GraphErr.backend "timeout") else none
    isTransient := fun _ => true
    maxRetries := 5
    readElements := fun _ => Except.ok []
    queryRows := fun _ _ => Except.ok [] }

def neo4jOneRow : Neo4j :=
  { execOutcome := fun _ _ => none
    isTransient := fun _ => false
    maxRetries := 3
    readElements := fun _ => Except.ok []
    queryRows := fun stmt _ =>
      if stmt == query.GetHierarchyRoot "inst" "dim" then Except.ok ["n1"]
      else if stmt == query.GetHierarchyElement "inst" "dim" then Except.ok ["n1"]
      else if stmt == query.GetChildren "inst" "dim" then Except.ok ["ch1"]
      else Except.ok ["an1"] }

def neo4jTwoRows : Neo4j :=
  { execOutcome := fun _ _ => none
    isTransient := fun _ => false
    maxRetries := 3
    readElements := fun _ => Except.ok []
    queryRows := fun stmt _ =>
      if stmt == query.GetHierarchyElement "inst" "dim" then Except.ok ["n1", "n2"]
      else if stmt == query.GetChildren "inst" "dim" then Except.ok ["ch1"]
      else Except.ok ["an1"] }

/-- C1: for every instanceID and dimension, when the backend query succeeds,
HierarchyExists returns (false, nil) if it matched zero hierarchy nodes,
(true, nil) if it matched exactly one, and (true, ErrMultipleFound) if it
matched more than one — on the Neptune backend and the Neo4j backend alike. -/
theorem hierarchyExists_zero_one_many (p : NeptuneDB) (n : Neo4j)
    (instanceID dimension : String) (vs : List GVertex) (es : List String)
    (hp : p.getVerticesResp (NQuery.hierarchyExists instanceID dimension) = Except.ok vs)
    (hn : n.readElements (query.HierarchyExists instanceID dimension) = Except.ok es) :
    (vs.length = 0 → p.HierarchyExists instanceID dimension = (false, none))
    ∧ (vs.length = 1 → p.HierarchyExists instanceID dimension = (true, none))
    ∧ (vs.length > 1 →
        p.HierarchyExists instanceID dimension = (true, some GraphErr.multipleFound))
    ∧ (es.length = 0 → n.HierarchyExists instanceID dimension = (false, none))
    ∧ (es.length = 1 → n.HierarchyExists instanceID dimension = (true, none))
    ∧ (es.length > 1 →
        n.HierarchyExists instanceID dimension = (true, some GraphErr.multipleFound)) := by
  refine ⟨?_, ?_, ?_, ?_, ?_, ?_⟩ <;> intro h
  · simp [NeptuneDB.HierarchyExists, hp, h]
  · simp [NeptuneDB.HierarchyExists, hp, h]
  · have h1 : vs.length ≠ 1 := by omega
    simp [NeptuneDB.HierarchyExists, hp, beq_iff_eq, h1, h]
  · simp [Neo4j.HierarchyExists, hn, h]
  · simp [Neo4j.HierarchyExists, hn, h]
  · have h1 : es.length ≠ 1 := by omega
    simp [Neo4j.HierarchyExists, hn, beq_iff_eq, h1, h]

theorem hierarchyExists_zero_one_many_witness :
    NeptuneDB.HierarchyExists neptuneOneVertex "inst" "dim" = (true, none)
    ∧ Neo4j.HierarchyExists neo4jOneElement "inst" "dim" = (true, none) := by
  have h := hierarchyExists_zero_one_many neptuneOneVertex neo4jOneElement "inst" "dim"
    [GVertex.mk "node-1"] ["el-1"] rfl rfl
  exact ⟨h.2.1 rfl, h.2.2.2.2.1 rfl⟩

/-- C2: every batched operation given an empty input collection issues zero
statements, returns no error, and the resolvers return an empty
identifier-to-code mapping. -/
theorem batched_ops_empty_input_noop (p : NeptuneDB) (attempt : Nat)
    (instanceID codeListID dimensionName : String) (hasData : Bool) :
    p.GetGenericHierarchyNodeIDs attempt codeListID [] = ([], Except.ok [])
    ∧ p.GetGenericHierarchyAncestriesIDs attempt codeListID [] = ([], Except.ok [])
    ∧ p.CloneNodesFromIDs attempt instanceID codeListID dimensionName [] hasData = ([], none)
    ∧ p.CloneRelationshipsFromIDs attempt instanceID dimensionName [] = ([], none)
    ∧ p.RemoveCloneEdgesFromSourceIDs attempt [] = ([], none)
    ∧ p.SetNumberOfChildrenFromIDs attempt [] = ([], none) :=
  ⟨rfl, rfl, rfl, rfl, rfl, rfl⟩

/-- C5: every ID-driven operation on the Neo4j backend returns an explicit
ErrNotImplemented, performs no graph-store call, and never silently
succeeds. -/
theorem neo4j_id_driven_not_implemented (n : Neo4j) (attempt : Nat)
    (instanceID codeListID dimensionName : String) (ids codesById : StrMap)
    (codes : List String) (hasData : Bool) :
    n.CloneNodesFromIDs attempt instanceID codeListID dimensionName ids hasData
      = ([], some GraphErr.notImplemented)
    ∧ n.CloneRelationshipsFromIDs attempt instanceID dimensionName ids
      = ([], some GraphErr.notImplemented)
    ∧ n.CreateHasCodeEdges attempt codeListID codesById = ([], some GraphErr.notImplemented)
    ∧ n.CloneOrderFromIDs codeListID ids = ([], some GraphErr.notImplemented)
    ∧ n.RemoveCloneEdges attempt instanceID dimensionName = ([], some GraphErr.notImplemented)
    ∧ n.RemoveCloneEdgesFromSourceIDs attempt ids = ([], some GraphErr.notImplemented)
    ∧ n.SetNumberOfChildrenFromIDs attempt ids = ([], some GraphErr.notImplemented)
    ∧ n.GetCodesWithData attempt instanceID dimensionName
      = ([], ([], some GraphErr.notImplemented))
    ∧ n.GetGenericHierarchyNodeIDs attempt codeListID codes
      = ([], ([], some GraphErr.notImplemented))
    ∧ n.GetGenericHierarchyAncestriesIDs attempt codeListID codes
      = ([], ([], some GraphErr.notImplemented))
    ∧ n.GetHierarchyNodeIDs attempt instanceID dimensionName
      = ([], ([], some GraphErr.notImplemented)) :=
  ⟨rfl, rfl, rfl, rfl, rfl, rfl, rfl, rfl, rfl, rfl, rfl⟩

/-- C3: the claim states that a failed legacy mutating phase either retries
with attempt+1 (transient error, attempt below the ceiling) or returns the
error wrapped with the FAILING STATEMENT.  The second half fails for
SetNumberOfChildren: hierarchy_writer.go line 120 passes the instanceID, not
the statement, to checkAttempts, so the surfaced error is wrapped with the
instance ID, which differs from the statement, while CloneNodes wraps the
statement as the claim says. -/
theorem setNumberOfChildren_wrap_uses_instance_id :
    Neo4j.SetNumberOfChildren neo4jPermanentFailure 1 "instance-1" "dim-1"
      = some (GraphErr.neoWrapped (GraphErr.backend "bad request") "instance-1")
    ∧ "instance-1" ≠ query.SetNumberOfChildren "instance-1" "dim-1"
    ∧ Neo4j.CloneNodes neo4jPermanentFailure 1 "instance-1" "list-1" "dim-1"
      = some (GraphErr.neoWrapped (GraphErr.backend "bad request")
          (query.CloneHierarchyNodes "list-1" "instance-1" "dim-1"))
    ∧ Neo4j.CloneNodes neo4jTransientOnce 1 "instance-1" "list-1" "dim-1"
      = Neo4j.CloneNodes neo4jTransientOnce 2 "instance-1" "list-1" "dim-1"
    ∧ Neo4j.CloneNodes neo4jTransientOnce 1 "instance-1" "list-1" "dim-1" = none := by
  refine ⟨?_, ?_, ?_, ?_, ?_⟩
  · rw [Neo4j.SetNumberOfChildren]
    simp [neo4jPermanentFailure, Neo4j.checkAttempts]
  · decide
  · rw [Neo4j.CloneNodes]
    simp [neo4jPermanentFailure, Neo4j.checkAttempts]
  · rw [Neo4j.CloneNodes]
    simp [neo4jTransientOnce, Neo4j.checkAttempts]
  · rw [Neo4j.CloneNodes, Neo4j.CloneNodes]
    simp [neo4jTransientOnce, Neo4j.checkAttempts]

/-- C4: a phase that runs its batches through the scheduler returns exactly
the first collected batch error when any batch errs, and no error (plus,
for the resolver, the merged mapping) when none errs — shown for the
resolver doGetGenericHierarchyNodeIDs and for CloneRelationshipsFromIDs. -/
theorem first_collected_error_propagated (p : NeptuneDB) (attempt : Nat)
    (codeListID instanceID dimensionName : String) (codes : List String)
    (ancestries : Bool) (ids : StrMap) (e : GraphErr) (rest : List GraphErr) :
    ((processInConcurrentBatches (createMapFromArrays codes)
        (processGenericHierarchyBatch p codeListID ancestries)
        p.batchSizeReader p.maxWorkers).snd.snd = [] →
      p.doGetGenericHierarchyNodeIDs attempt codeListID codes ancestries
        = ((processInConcurrentBatches (createMapFromArrays codes)
              (processGenericHierarchyBatch p codeListID ancestries)
              p.batchSizeReader p.maxWorkers).fst,
           Except.ok (processInConcurrentBatches (createMapFromArrays codes)
              (processGenericHierarchyBatch p codeListID ancestries)
              p.batchSizeReader p.maxWorkers).snd.fst))
    ∧ ((processInConcurrentBatches (createMapFromArrays codes)
        (processGenericHierarchyBatch p codeListID ancestries)
        p.batchSizeReader p.maxWorkers).snd.snd = e :: rest →
      p.doGetGenericHierarchyNodeIDs attempt codeListID codes ancestries
        = ((processInConcurrentBatches (createMapFromArrays codes)
              (processGenericHierarchyBatch p codeListID ancestries)
              p.batchSizeReader p.maxWorkers).fst, Except.error e))
    ∧ ((processInConcurrentBatches ids
          (cloneRelationshipsBatch p instanceID dimensionName)
          p.batchSizeWriter p.maxWorkers).snd.snd = [] →
      p.CloneRelationshipsFromIDs attempt instanceID dimensionName ids
        = ((processInConcurrentBatches ids
              (cloneRelationshipsBatch p instanceID dimensionName)
              p.batchSizeWriter p.maxWorkers).fst, none))
    ∧ ((processInConcurrentBatches ids
          (cloneRelationshipsBatch p instanceID dimensionName)
          p.batchSizeWriter p.maxWorkers).snd.snd = e :: rest →
      p.CloneRelationshipsFromIDs attempt instanceID dimensionName ids
        = ((processInConcurrentBatches ids
              (cloneRelationshipsBatch p instanceID dimensionName)
              p.batchSizeWriter p.maxWorkers).fst, some e)) := by
  refine ⟨?_, ?_, ?_, ?_⟩ <;> intro h <;>
    simp only [NeptuneDB.doGetGenericHierarchyNodeIDs,
      NeptuneDB.CloneRelationshipsFromIDs] <;> rw [h]

theorem first_collected_error_propagated_witness :
    NeptuneDB.doGetGenericHierarchyNodeIDs neptuneExecFails 1 "cl" ["a"] false
      = ([NQuery.genericHierarchyNodeIDs "cl" ["a"]],
         Except.error (GraphErr.gremlinQueryFailed (GraphErr.backend "boom")
           (NQuery.genericHierarchyNodeIDs "cl" ["a"]))) := by
  have h := first_collected_error_propagated neptuneExecFails 1 "cl" "i" "d" ["a"] false []
    (GraphErr.gremlinQueryFailed (GraphErr.backend "boom")
      (NQuery.genericHierarchyNodeIDs "cl" ["a"])) []
  exact h.2.1 rfl

/-- C6 (counterexample): on the Neo4j backend a hierarchy-element query
matching two nodes does not fail with ErrMultipleFound — queryResponse
(hierarchy_reader.go line 101) reads with the single flag unset and
assembles the response from the last mapped row — refuting, for the Neo4j
backend named by the claim, the arm that more than one match fails with
MultipleFound. -/
theorem neo4j_element_multiple_matches_without_error :
    Neo4j.GetHierarchyElement neo4jTwoRows "inst" "dim" "code-1"
      = Except.ok { rid := "n2", children := ["ch1"], breadcrumbs := ["an1"] }
    ∧ Neo4j.GetHierarchyElement neo4jTwoRows "inst" "dim" "code-1"
      ≠ Except.error GraphErr.multipleFound := by
  have hres : Neo4j.GetHierarchyElement neo4jTwoRows "inst" "dim" "code-1"
      = Except.ok { rid := "n2", children := ["ch1"], breadcrumbs := ["an1"] } := rfl
  refine ⟨hres, ?_⟩
  intro h
  rw [hres] at h
  exact Except.noConfusion h

/-- C6 (amended): GetHierarchyRoot and GetHierarchyElement fail with
ErrNotFound when zero nodes match on both backends; on the Neptune backend
they fail with ErrMultipleFound when more than one matches, while the
Neo4j backend does not detect multiplicity (the response is assembled from
the last mapped row, without error); on a unique match the assembled result
includes the node direct children, and breadcrumbs (ancestor chain,
nearest first) are assembled only for a non-root element, never for the
root. -/
theorem hierarchy_root_element_assembly (p : NeptuneDB) (n : Neo4j)
    (instanceID dimension code : String) (v w : GVertex) (rest : List GVertex)
    (r r1 r2 : String) (rs : List String) (c a : String) (cs bs : List String) :
    (p.getVerticesResp (NQuery.getHierarchyRoot instanceID dimension) = Except.ok [] →
       p.GetHierarchyRoot instanceID dimension = Except.error GraphErr.notFound)
    ∧ (p.getVerticesResp (NQuery.getHierarchyRoot instanceID dimension)
         = Except.ok (v :: w :: rest) →
       p.GetHierarchyRoot instanceID dimension = Except.error GraphErr.multipleFound)
    ∧ (p.getVerticesResp (NQuery.getHierarchyRoot instanceID dimension) = Except.ok [v] →
       p.GetHierarchyRoot instanceID dimension
         = Except.ok { rid := v.vid, children := p.childrenOf v.vid, breadcrumbs := [] })
    ∧ (p.getVerticesResp (NQuery.getHierarchyElement instanceID dimension code)
         = Except.ok [] →
       p.GetHierarchyElement instanceID dimension code = Except.error GraphErr.notFound)
    ∧ (p.getVerticesResp (NQuery.getHierarchyElement instanceID dimension code)
         = Except.ok (v :: w :: rest) →
       p.GetHierarchyElement instanceID dimension code
         = Except.error GraphErr.multipleFound)
    ∧ (p.getVerticesResp (NQuery.getHierarchyElement instanceID dimension code)
         = Except.ok [v] →
       p.GetHierarchyElement instanceID dimension code
         = Except.ok { rid := v.vid, children := p.childrenOf v.vid,
                       breadcrumbs := p.ancestryOf v.vid })
    ∧ (n.queryRows (query.GetHierarchyRoot instanceID dimension) [] = Except.ok [] →
       n.GetHierarchyRoot instanceID dimension = Except.error GraphErr.notFound)
    ∧ (n.queryRows (query.GetHierarchyElement instanceID dimension) [("code", code)]
         = Except.ok [] →
       n.GetHierarchyElement instanceID dimension code = Except.error GraphErr.notFound)
    ∧ (n.queryRows (query.GetHierarchyRoot instanceID dimension) [] = Except.ok [r] →
       n.queryRows (query.GetChildren instanceID dimension) [("code", r)]
         = Except.ok (c :: cs) →
       n.GetHierarchyRoot instanceID dimension
         = Except.ok { rid := r, children := c :: cs, breadcrumbs := [] })
    ∧ (n.queryRows (query.GetHierarchyElement instanceID dimension) [("code", code)]
         = Except.ok [r] →
       n.queryRows (query.GetChildren instanceID dimension) [("code", r)]
         = Except.ok (c :: cs) →
       n.queryRows (query.GetAncestry instanceID dimension) [("code", code)]
         = Except.ok (a :: bs) →
       n.GetHierarchyElement instanceID dimension code
         = Except.ok { rid := r, children := c :: cs, breadcrumbs := a :: bs })
    ∧ (n.queryRows (query.GetHierarchyElement instanceID dimension) [("code", code)]
         = Except.ok (r1 :: r2 :: rs) →
       n.queryRows (query.GetChildren instanceID dimension)
           [("code", lastRow (r1 :: r2 :: rs))] = Except.ok (c :: cs) →
       n.queryRows (query.GetAncestry instanceID dimension) [("code", code)]
         = Except.ok (a :: bs) →
       n.GetHierarchyElement instanceID dimension code
         = Except.ok { rid := lastRow (r1 :: r2 :: rs),
                       children := c :: cs, breadcrumbs := a :: bs }) := by
  refine ⟨?_, ?_, ?_, ?_, ?_, ?_, ?_, ?_, ?_, ?_, ?_⟩
  · intro h
    simp [NeptuneDB.GetHierarchyRoot, NeptuneDB.buildHierarchyNode, h]
  · intro h
    simp [NeptuneDB.GetHierarchyRoot, NeptuneDB.buildHierarchyNode, h]
  · intro h
    simp [NeptuneDB.GetHierarchyRoot, NeptuneDB.buildHierarchyNode, h]
  · intro h
    simp [NeptuneDB.GetHierarchyElement, NeptuneDB.getVertex,
      NeptuneDB.buildHierarchyNode, h]
  · intro h
    simp [NeptuneDB.GetHierarchyElement, NeptuneDB.getVertex,
      NeptuneDB.buildHierarchyNode, h]
  · intro h
    simp [NeptuneDB.GetHierarchyElement, NeptuneDB.getVertex,
      NeptuneDB.buildHierarchyNode, h]
  · intro h
    simp [Neo4j.GetHierarchyRoot, Neo4j.queryResponse, readWithParamsRows, h]
  · intro h
    simp [Neo4j.GetHierarchyElement, Neo4j.queryResponse, readWithParamsRows, h]
  · intro h1 h2
    simp [Neo4j.GetHierarchyRoot, Neo4j.queryResponse, Neo4j.getChildren,
      readWithParamsRows, lastRow, h1, h2]
  · intro h1 h2 h3
    simp [Neo4j.GetHierarchyElement, Neo4j.queryResponse, Neo4j.getChildren,
      Neo4j.getAncestry, readWithParamsRows, lastRow, h1, h2, h3]
  · intro h1 h2 h3
    simp [Neo4j.GetHierarchyElement, Neo4j.queryResponse, Neo4j.getChildren,
      Neo4j.getAncestry, readWithParamsRows, h1, h2, h3]

theorem hierarchy_root_element_assembly_witness :
    NeptuneDB.GetHierarchyRoot neptuneOneVertex "inst" "dim"
      = Except.ok { rid := "node-1", children := ["child-1"], breadcrumbs := [] }
    ∧ NeptuneDB.GetHierarchyElement neptuneOneVertex "inst" "dim" "code-1"
      = Except.ok { rid := "node-1", children := ["child-1"],
                    breadcrumbs := ["parent-1", "grandparent-1"] }
    ∧ Neo4j.GetHierarchyRoot neo4jOneRow "inst" "dim"
      = Except.ok { rid := "n1", children := ["ch1"], breadcrumbs := [] }
    ∧ Neo4j.GetHierarchyElement neo4jOneRow "inst" "dim" "code-1"
      = Except.ok { rid := "n1", children := ["ch1"], breadcrumbs := ["an1"] } := by
  have h := hierarchy_root_element_assembly neptuneOneVertex neo4jOneRow
    "inst" "dim" "code-1" (GVertex.mk "node-1") (GVertex.mk "node-1") []
    "n1" "x" "y" [] "ch1" "an1" [] []
  exact ⟨h.2.2.1 rfl, h.2.2.2.2.2.1 rfl,
    h.2.2.2.2.2.2.2.2.1 rfl rfl, h.2.2.2.2.2.2.2.2.2.1 rfl rfl rfl⟩

/-- C7: for N input entries and positive batch size B and positive worker
limit, the scheduler splits the input into exactly ceil(N/B) chunks (and
applies the per-chunk function once per chunk by construction), each chunk
holds at most B entries, and an empty input yields an empty merged result
mapping, no statements and zero invocations. -/
theorem batchScheduler_invocations (input : StrMap)
    (f : StrMap → List NQuery × Except GraphErr StrMap)
    (batchSize maxWorkers : Nat) (hb : 0 < batchSize) (hw : 0 < maxWorkers) :
    (chunks batchSize input).length = (input.length + batchSize - 1) / batchSize
    ∧ (∀ c ∈ chunks batchSize input, c.length ≤ batchSize)
    ∧ (processInConcurrentBatches input f batchSize maxWorkers).fst
        = (((chunks batchSize input).map f).map Prod.fst).flatten
    ∧ (input = [] → processInConcurrentBatches input f batchSize maxWorkers = ([], [], [])) := by
  refine ⟨chunks_length batchSize hb input, chunks_sizes batchSize hb input, rfl, ?_⟩
  intro h
  subst h
  rfl

theorem batchScheduler_invocations_witness :
    (0 : Nat) < 2 ∧ (0 : Nat) < 3
    ∧ (chunks 2 [("a", "a"), ("b", "b"), ("c", "c")]).length = 2
    ∧ processInConcurrentBatches [] (fun c => ([], Except.ok c)) 2 3 = ([], [], []) := by
  have h := batchScheduler_invocations [("a", "a"), ("b", "b"), ("c", "c")]
    (fun c => ([], Except.ok c)) 2 3 (by decide) (by decide)
  have h0 := batchScheduler_invocations [] (fun c => ([], Except.ok c)) 2 3
    (by decide) (by decide)
  exact ⟨by decide, by decide, h.1, h0.2.2.2 rfl⟩

/- Supporting lemmas for the SetHasData idempotence claim. -/

theorem applyHasData_nlabel (instanceID dimensionName : String) (codes : List String)
    (nd : GNode) : (applyHasData instanceID dimensionName codes nd).nlabel = nd.nlabel := by
  unfold applyHasData
  split <;> rfl

theorem applyHasData_code (instanceID dimensionName : String) (codes : List String)
    (nd : GNode) : (applyHasData instanceID dimensionName codes nd).code = nd.code := by
  unfold applyHasData
  split <;> rfl

theorem applyHasData_value (instanceID dimensionName : String) (codes : List String)
    (nd : GNode) : (applyHasData instanceID dimensionName codes nd).value = nd.value := by
  unfold applyHasData
  split <;> rfl

theorem applyHasData_idem (instanceID dimensionName : String) (codes : List String)
    (nd : GNode) :
    applyHasData instanceID dimensionName codes (applyHasData instanceID dimensionName codes nd)
      = applyHasData instanceID dimensionName codes nd := by
  by_cases hcond : nd.nlabel = hierarchyNodeLabel instanceID dimensionName ∧ nd.code ∈ codes
  · simp [applyHasData, hcond]
  · simp [applyHasData, hcond]

theorem filterValues_map_applyHasData (instanceID dimensionName lbl : String)
    (codes : List String) (ns : List GNode) :
    ((ns.map (applyHasData instanceID dimensionName codes)).filter
        (fun nd => nd.nlabel == lbl)).map (fun nd => nd.value)
      = (ns.filter (fun nd => nd.nlabel == lbl)).map (fun nd => nd.value) := by
  induction ns with
  | nil => rfl
  | cons x xs ih =>
    simp only [List.map_cons, List.filter_cons, applyHasData_nlabel]
    by_cases h : (x.nlabel == lbl) = true
    · simp [h, ih, applyHasData_value]
    · simp [h, ih]

theorem codesWithData_setHasDataEffect (g : GraphSt)
    (instanceID dimensionName : String) (codes : List String) :
    codesWithData (setHasDataEffect g instanceID dimensionName codes) instanceID dimensionName
      = codesWithData g instanceID dimensionName :=
  filterValues_map_applyHasData instanceID dimensionName
    (dimensionDataLabel instanceID dimensionName) codes g.nodes

theorem setHasDataEffect_idem (g : GraphSt) (instanceID dimensionName : String)
    (codes : List String) :
    setHasDataEffect (setHasDataEffect g instanceID dimensionName codes)
        instanceID dimensionName codes
      = setHasDataEffect g instanceID dimensionName codes := by
  unfold setHasDataEffect
  simp only [List.map_map]
  congr 1
  exact List.map_congr_left (fun nd _ => applyHasData_idem instanceID dimensionName codes nd)

/-- C8: running SetHasData twice in succession over any graph state yields
the same state, hasData flags included, as running it once: the second
codes-with-data read is unaffected because the mutation only sets hasData,
and setting hasData to true is idempotent. -/
theorem setHasData_idempotent (g : GraphSt) (attempt attempt2 : Nat)
    (instanceID dimensionName : String) :
    runSetHasData (runSetHasData g attempt instanceID dimensionName)
        attempt2 instanceID dimensionName
      = runSetHasData g attempt instanceID dimensionName := by
  have h1 : ∀ (g2 : GraphSt) (a : Nat), runSetHasData g2 a instanceID dimensionName
      = setHasDataEffect g2 instanceID dimensionName
          (codesWithData g2 instanceID dimensionName) := fun g2 a => rfl
  rw [h1 (runSetHasData g attempt instanceID dimensionName) attempt2,
    h1 g attempt, codesWithData_setHasDataEffect, setHasDataEffect_idem]

/- Supporting lemmas for the decode-error claim. -/

theorem processGenericHierarchyBatch_fst (p : NeptuneDB) (codeListID : String)
    (ancestries : Bool) (chunkCodes : StrMap) :
    (processGenericHierarchyBatch p codeListID ancestries chunkCodes).fst
      = [genericHierarchyStmt ancestries codeListID chunkCodes] := by
  unfold processGenericHierarchyBatch
  cases h : p.execResp (genericHierarchyStmt ancestries codeListID chunkCodes) with
  | error e => simp [h]
  | ok res =>
    simp only [h]
    cases h2 : decodeResponses res [] with
    | error e2 => simp [h2]
    | ok acc => simp [h2]

theorem scheduler_log_single_statement (input : StrMap)
    (f : StrMap → List NQuery × Except GraphErr StrMap) (g : StrMap → NQuery)
    (b w : Nat) (hf : ∀ c, (f c).fst = [g c]) :
    (processInConcurrentBatches input f b w).fst = (chunks b input).map g := by
  unfold processInConcurrentBatches
  simp only [List.map_map]
  have hfun : (Prod.fst ∘ f) = fun c => [g c] := funext fun c => hf c
  rw [hfun, flatten_map_singleton]

/-- C9: a batch record missing the node_id or node_code key fails the
resolver batch with ErrNotFound, a value that fails to decode fails it with
the unmarshal error; such an error is surfaced unchanged through the batch
and, when first, by the operation; and regardless of any failure every
chunk issues its statement exactly once (the statement log is one statement
per chunk), so the batch is never retried. -/
theorem decode_errors_surface_without_retry (p : NeptuneDB) (attempt : Nat)
    (codeListID : String) (codes : List String) (ancestries : Bool)
    (m : List (String × RawValue)) (tag : String) (r2 : RawValue)
    (res : List GremgoResponse) (chunkCodes : StrMap) (e : GraphErr)
    (rest : List GraphErr) :
    ((p.doGetGenericHierarchyNodeIDs attempt codeListID codes ancestries).fst
       = (chunks p.batchSizeReader (createMapFromArrays codes)).map
           (genericHierarchyStmt ancestries codeListID))
    ∧ (lookupRaw m "node_id" = none →
        getNodeIdCodeFromMap m = Except.error GraphErr.notFound)
    ∧ (lookupRaw m "node_code" = none →
        getNodeIdCodeFromMap m = Except.error GraphErr.notFound)
    ∧ (lookupRaw m "node_id" = some (RawValue.other tag) →
        lookupRaw m "node_code" = some r2 →
        getNodeIdCodeFromMap m = Except.error (GraphErr.unmarshalFailure tag))
    ∧ (p.execResp (genericHierarchyStmt ancestries codeListID chunkCodes) = Except.ok res →
        decodeResponses res [] = Except.error e →
        processGenericHierarchyBatch p codeListID ancestries chunkCodes
          = ([genericHierarchyStmt ancestries codeListID chunkCodes], Except.error e))
    ∧ ((processInConcurrentBatches (createMapFromArrays codes)
          (processGenericHierarchyBatch p codeListID ancestries)
          p.batchSizeReader p.maxWorkers).snd.snd = e :: rest →
        (p.doGetGenericHierarchyNodeIDs attempt codeListID codes ancestries).snd
          = Except.error e) := by
  refine ⟨?_, ?_, ?_, ?_, ?_, ?_⟩
  · refine Eq.trans ?_ (scheduler_log_single_statement (createMapFromArrays codes)
      (processGenericHierarchyBatch p codeListID ancestries)
      (genericHierarchyStmt ancestries codeListID) p.batchSizeReader p.maxWorkers
      (processGenericHierarchyBatch_fst p codeListID ancestries))
    unfold NeptuneDB.doGetGenericHierarchyNodeIDs
    cases herr : (processInConcurrentBatches (createMapFromArrays codes)
        (processGenericHierarchyBatch p codeListID ancestries)
        p.batchSizeReader p.maxWorkers).snd.snd <;> simp [herr]
  · intro h
    unfold getNodeIdCodeFromMap
    rw [h]
  · intro h
    unfold getNodeIdCodeFromMap
    cases h1 : lookupRaw m "node_id" with
    | none => rfl
    | some r => rw [h]
  · intro h1 h2
    unfold getNodeIdCodeFromMap
    rw [h1, h2]
    rfl
  · intro h1 h2
    unfold processGenericHierarchyBatch
    simp only [h1, h2]
  · intro h
    unfold NeptuneDB.doGetGenericHierarchyNodeIDs
    simp only [h]

def badRecordResponse : GremgoResponse :=
  GremgoResponse.mk (RespData.listData
    [ItemData.mapItem [("node_code", RawValue.str "c1")]])

def neptuneBadRecord : NeptuneDB :=
  { execResp := fun _ => Except.ok [badRecordResponse]
    getVerticesResp := fun _ => Except.ok []
    getStringListResp := fun _ => Except.ok []
    getEdgesResp := fun _ => Except.ok []
    childrenOf := fun _ => []
    ancestryOf := fun _ => []
    batchSizeReader := 5
    batchSizeWriter := 5
    maxWorkers := 1 }

theorem decode_errors_surface_without_retry_witness :
    getNodeIdCodeFromMap [("node_code", RawValue.str "c1")]
      = Except.error GraphErr.notFound
    ∧ processGenericHierarchyBatch neptuneBadRecord "cl" false [("a", "a")]
      = ([genericHierarchyStmt false "cl" [("a", "a")]], Except.error GraphErr.notFound)
    ∧ (NeptuneDB.doGetGenericHierarchyNodeIDs neptuneBadRecord 1 "cl" ["a"] false).snd
      = Except.error GraphErr.notFound := by
  have h := decode_errors_surface_without_retry neptuneBadRecord 1 "cl" ["a"] false
    [("node_code", RawValue.str "c1")] "t" (RawValue.str "c1") [badRecordResponse]
    [("a", "a")] GraphErr.notFound []
  exact ⟨h.2.1 rfl, h.2.2.2.2.1 rfl rfl, h.2.2.2.2.2 rfl⟩

/- Supporting lemma for the clone-marker removal claim. -/

theorem removeCloneMarkersEffect_idem (s : GraphSt) (instanceID dimensionName : String) :
    removeCloneMarkersEffect (removeCloneMarkersEffect s instanceID dimensionName)
        instanceID dimensionName
      = removeCloneMarkersEffect s instanceID dimensionName := by
  have h := filter_idem
    (fun e => !(e.lbl == "clone_of"
      && nodeLabeled s e.src (hierarchyNodeLabel instanceID dimensionName))) s.edges
  show GraphSt.mk s.nodes
      ((s.edges.filter (fun e => !(e.lbl == "clone_of"
          && nodeLabeled s e.src (hierarchyNodeLabel instanceID dimensionName)))).filter
        (fun e => !(e.lbl == "clone_of"
          && nodeLabeled s e.src (hierarchyNodeLabel instanceID dimensionName))))
    = GraphSt.mk s.nodes
        (s.edges.filter (fun e => !(e.lbl == "clone_of"
          && nodeLabeled s e.src (hierarchyNodeLabel instanceID dimensionName))))
  rw [h]

/-- C10: a successful bulk CloneRelationships on the Neptune backend issues
the relationship-cloning statement followed by the clone-marker removal
statement, reports no error, leaves no clone_of edge whose source node is
in the instance hierarchy namespace, and a subsequent RemoveCloneEdges
statement has no further effect on the resulting state (it is redundant). -/
theorem cloneRelationships_removes_clone_edges (g : GraphSt) (attempt : Nat)
    (instanceID codeListID dimensionName : String) :
    ((statePool g).CloneRelationships attempt instanceID codeListID dimensionName).fst
      = [NQuery.cloneHierarchyRelationships codeListID instanceID dimensionName,
         NQuery.removeCloneMarkers instanceID dimensionName]
    ∧ ((statePool g).CloneRelationships attempt instanceID codeListID dimensionName).snd
      = none
    ∧ (∀ e ∈ (runCloneRelationships g attempt instanceID codeListID dimensionName).edges,
        ¬(e.lbl = "clone_of"
          ∧ nodeLabeled (runCloneRelationships g attempt instanceID codeListID dimensionName)
              e.src (hierarchyNodeLabel instanceID dimensionName) = true))
    ∧ applyStmt (runCloneRelationships g attempt instanceID codeListID dimensionName)
        (NQuery.removeCloneMarkers instanceID dimensionName)
      = runCloneRelationships g attempt instanceID codeListID dimensionName := by
  refine ⟨rfl, rfl, ?_, ?_⟩
  · intro e he
    have he2 : e ∈ (cloneRelationshipsEffect g instanceID dimensionName).edges.filter
        (fun ed => !(ed.lbl == "clone_of"
          && nodeLabeled (cloneRelationshipsEffect g instanceID dimensionName) ed.src
               (hierarchyNodeLabel instanceID dimensionName))) := he
    have hpred := (List.mem_filter.mp he2).2
    intro hcontra
    have hlab2 : nodeLabeled (cloneRelationshipsEffect g instanceID dimensionName) e.src
        (hierarchyNodeLabel instanceID dimensionName) = true := hcontra.2
    simp [hcontra.1, hlab2] at hpred
  · exact removeCloneMarkersEffect_idem
      (cloneRelationshipsEffect g instanceID dimensionName) instanceID dimensionName

def graphWitness : GraphSt :=
  { nodes := [GNode.mk "c1" (hierarchyNodeLabel "inst" "dim") "code1" "v" false]
    edges := [GEdge.mk "c1" "g1" "clone_of", GEdge.mk "x" "y" "otherRel"] }

theorem cloneRelationships_removes_clone_edges_witness :
    GEdge.mk "x" "y" "otherRel"
        ∈ (runCloneRelationships graphWitness 1 "inst" "cl" "dim").edges
    ∧ ¬((GEdge.mk "x" "y" "otherRel").lbl = "clone_of"
        ∧ nodeLabeled (runCloneRelationships graphWitness 1 "inst" "cl" "dim")
            (GEdge.mk "x" "y" "otherRel").src (hierarchyNodeLabel "inst" "dim") = true) := by
  have h := cloneRelationships_removes_clone_edges graphWitness 1 "inst" "cl" "dim"
  exact ⟨by decide, h.2.2.1 (GEdge.mk "x" "y" "otherRel") (by decide)⟩
